import Mathlib

/-!
Shallow embedding of the PhantomAPI gateway (src/gateway.py,
src/features/adaptive.py, src/features/predictor.py,
src/features/logger.py).  Python floats are modelled as exact
rationals, Python dicts as association lists, and the prometheus
counters the claims mention as natural-number fields of an explicit
gateway-state record.
-/

namespace PhantomAPI

/- ### Configuration constants (src/gateway.py lines 17-47) -/

def UPSTREAM_TIMEOUT_SECONDS : ℚ := 2
def MAX_RETRIES : ℕ := 2
def IDEMPOTENT_METHODS : List String := ["GET", "HEAD"]
def CIRCUIT_WINDOW_SIZE : ℕ := 20
def CIRCUIT_FAILURE_THRESHOLD : ℚ := 1/2
def CIRCUIT_MIN_REQUESTS : ℕ := 10
def CIRCUIT_OPEN_DURATION_SECONDS : ℚ := 30
def PREDICTIVE_COOLDOWN : ℚ := 30
def SOFT_RISK_THRESHOLD : ℚ := 45/100
def HARD_RISK_THRESHOLD : ℚ := 7/10
def DEGRADED_TIMEOUT_SECONDS : ℚ := 1
def DEGRADED_MAX_RETRIES : ℕ := 0

/- ### Feature vectors

A feature vector (a Python dict of floats) is an association list;
`fget f name d` is `f.get(name, d)`.  The empty list is the
distinguished "insufficient data" value (falsy dict). -/

def fget : List (String × ℚ) → String → ℚ → ℚ
  | [], _, d => d
  | (k, v) :: rest, name, d => if k = name then v else fget rest name d

/- ### AdaptiveThresholdController (src/features/adaptive.py) -/

structure AdaptiveThresholdController where
  base : ℚ
  min : ℚ
  max : ℚ
deriving DecidableEq

/-- Default construction `AdaptiveThresholdController()`
(base_threshold=0.7, min_threshold=0.4, max_threshold=0.9). -/
def defaultAdaptiveController : AdaptiveThresholdController :=
  { base := 7/10, min := 2/5, max := 9/10 }

/-- Python `round(q, 2)`.  Python uses round-half-to-even; every value
this development applies `round2` to has `q * 100` an integer, where
the two conventions agree, so Mathlib `round` (half-up) is faithful. -/
def round2 (q : ℚ) : ℚ := (round (q * 100) : ℚ) / 100

/-- `AdaptiveThresholdController.compute_threshold`
(src/features/adaptive.py lines 12-37).  The sequential mutation of
`threshold` is modelled by the chain t0..t4. -/
def compute_threshold (c : AdaptiveThresholdController)
    (features : List (String × ℚ)) : ℚ :=
  if features = [] then c.base
  else
    let t0 := c.base
    let t1 := if 3/10 < fget features "retry_rate" 0 then t0 - 1/10 else t0
    let t2 := if 0 < fget features "latency_slope" 0 then t1 - 1/10 else t1
    let t3 := if 0 < fget features "circuit_flap_rate" 0 then t2 - 15/100 else t2
    let t4 := if fget features "failure_ratio" 0 = 0 ∧
                 fget features "latency_slope" 0 ≤ 0 then t3 + 1/10 else t3
    max c.min (min c.max (round2 t4))

/- ### FailureRiskPredictor (src/features/predictor.py) -/

structure FailureRiskPredictor where
  feature_names : List String
  /-- Modelled from the spec: the trained model artifact
  (`experiments/models/failure_risk_model.joblib`, a scikit-learn
  `LogisticRegression` produced by
  src/experiments/models/train_failure_model.py) is not part of the
  Lean-translatable source.  `predict_proba_one row` stands for
  `float(model.predict_proba(DataFrame([row]))[0][1])`; `none` models
  the model raising an exception. -/
  predict_proba_one : List ℚ → Option ℚ

/-- `FailureRiskPredictor.predict_risk`
(src/features/predictor.py lines 17-39): empty input returns 0.0, the
row projects the input onto `feature_names` in order substituting 0.0
for missing keys, and any exception from the model yields 0.0.  The
Lean function is total, mirroring "this method must NEVER raise". -/
def predict_risk (p : FailureRiskPredictor)
    (features : List (String × ℚ)) : ℚ :=
  if features = [] then 0
  else
    let row := p.feature_names.map (fun name => fget features name 0)
    match p.predict_proba_one row with
    | some prob => prob
    | none => 0

/- ### FeatureLogger (src/features/logger.py) -/

/-- The label assignment of `FeatureLogger._log_once` (line 65):
`1 if feat["failure_ratio"] >= self.failure_threshold else 0`.
The extractor always supplies `failure_ratio`, so the dict access is
modelled with default 0. -/
def label_of (failure_threshold : ℚ) (feat : List (String × ℚ)) : ℕ :=
  if failure_threshold ≤ fget feat "failure_ratio" 0 then 1 else 0

/-- `FeatureLogger._log_once` (src/features/logger.py lines 49-88),
as a pure function of the pending-label buffer, the current time, and
the features sampled now (`self.extractor.compute_features()`).
Returns the new buffer and the labeled rows appended to the CSV sink
during this call. -/
def log_once (failure_threshold label_window : ℚ)
    (buffer : List (ℚ × List (String × ℚ))) (now : ℚ)
    (features : List (String × ℚ)) :
    List (ℚ × List (String × ℚ)) × List (ℚ × List (String × ℚ) × ℕ) :=
  if features = [] then (buffer, [])
  else
    let buffer1 := buffer ++ [(now, features)]
    let cutoff := now - label_window
    let labeled := (buffer1.filter (fun e => decide (e.1 ≤ cutoff))).map
        (fun e => (e.1, e.2, label_of failure_threshold e.2))
    let buffer2 := buffer1.filter (fun e => decide (cutoff < e.1))
    (buffer2, labeled)

/- ### Gateway state (src/gateway.py module-level mutable state)

Only the metrics the claims mention are modelled; the labelled
prometheus counters (`upstream_retries_total` etc.) are modelled as
plain totals, and `api_requests_total` / the latency histogram /
`circuit_failure_ratio` (pure observability, mentioned by no claim)
are omitted. -/

inductive CircuitState where
  | CLOSED
  | OPEN
  | HALF_OPEN
deriving DecidableEq

structure GatewayState where
  circuit_state : CircuitState
  circuit_opened_at : Option ℚ
  half_open_probe_in_flight : Bool
  failure_window : List Bool
  last_predictive_action : ℚ
  upstream_retries_total : ℕ
  upstream_retry_exhausted_total : ℕ
  upstream_timeouts_total : ℕ
  upstream_5xx_errors_total : ℕ
  circuit_short_circuited_total : ℕ
  circuit_open_total : ℕ
  circuit_requests_tracked_total : ℕ
  circuit_state_gauge : ℕ
deriving DecidableEq

/-- `circuit_opened_at` read as a number (`now - circuit_opened_at` in
the source would raise on `None`; the gateway only reads it while
OPEN, where it is always set). -/
def openedAtD (g : GatewayState) : ℚ := g.circuit_opened_at.getD 0

/-- Append on a `deque(maxlen=CIRCUIT_WINDOW_SIZE)`: the oldest entry
is evicted when the capacity is exceeded. -/
def dequeAppend (w : List Bool) (b : Bool) : List Bool :=
  let w1 := w ++ [b]
  if CIRCUIT_WINDOW_SIZE < w1.length then w1.drop (w1.length - CIRCUIT_WINDOW_SIZE)
  else w1

/-- Number of failures recorded in the window (`sum(failure_window)`). -/
def windowFailures (w : List Bool) : ℕ := (w.filter id).length

/-- `sum(failure_window) / len(failure_window)`. -/
def failureRatioOf (w : List Bool) : ℚ := (windowFailures w : ℚ) / (w.length : ℚ)

/-- `maybe_open_circuit` (src/gateway.py lines 176-186). -/
def maybe_open_circuit (now : ℚ) (g : GatewayState) : GatewayState :=
  if CIRCUIT_MIN_REQUESTS ≤ g.failure_window.length then
    if CIRCUIT_FAILURE_THRESHOLD ≤ failureRatioOf g.failure_window ∧
        g.circuit_state = .CLOSED then
      { g with circuit_state := .OPEN,
               circuit_opened_at := some now,
               half_open_probe_in_flight := false,
               circuit_state_gauge := 1,
               circuit_open_total := g.circuit_open_total + 1 }
    else g
  else g

/-- `request_mode_from_risk` (src/gateway.py lines 168-173). -/
inductive Mode where
  | NORMAL
  | DEGRADED
  | HARD_FAIL
deriving DecidableEq

def request_mode_from_risk (risk : ℚ) : Mode :=
  if HARD_RISK_THRESHOLD ≤ risk then .HARD_FAIL
  else if SOFT_RISK_THRESHOLD ≤ risk then .DEGRADED
  else .NORMAL

/-- `predictive_circuit_controller` (src/gateway.py lines 143-165),
one iteration of its loop after the sleep.  `risk` and `threshold`
stand for `risk_predictor.predict_risk(features)` and
`adaptive_controller.compute_threshold(features)`; the two
`time.time()` reads within a tick are modelled as the same `now`. -/
def predictiveTick (g : GatewayState) (now risk threshold : ℚ) : GatewayState :=
  if g.circuit_state ≠ .CLOSED then g
  else if now - g.last_predictive_action < PREDICTIVE_COOLDOWN then g
  else if threshold ≤ risk then
    { g with circuit_state := .OPEN,
             circuit_opened_at := some now,
             circuit_state_gauge := 1,
             circuit_open_total := g.circuit_open_total + 1,
             last_predictive_action := now }
  else g

/- ### The proxy request handler (src/gateway.py lines 222-319) -/

/-- Outcome of one upstream attempt: a response with its status code
and body, or an `httpx.TimeoutException`. -/
inductive Outcome where
  | resp (status : ℕ) (content : String)
  | timeout
deriving DecidableEq

/-- `is_failure = 500 <= resp.status_code < 600` (line 279). -/
def isFailureStatus (status : ℕ) : Bool :=
  decide (500 ≤ status) && decide (status < 600)

/-- `method in IDEMPOTENT_METHODS` (lines 294, 312). -/
def isIdempotent (method : String) : Bool :=
  decide (method ∈ IDEMPOTENT_METHODS)

/-- The HALF_OPEN-success close transition (lines 283-288). -/
def closeCircuit (g : GatewayState) : GatewayState :=
  { g with circuit_state := .CLOSED,
           half_open_probe_in_flight := false,
           circuit_opened_at := none,
           failure_window := [],
           circuit_state_gauge := 0 }

structure LoopResult where
  status : ℕ
  body : String
  /-- final value of the `attempts` counter (number of retries performed) -/
  attempts : ℕ
  state : GatewayState
deriving DecidableEq

/-- The gateway-state updates performed on receiving an upstream
response (src/gateway.py lines 276-292): append `is_failure` to the
window, count the tracked request, close the breaker on a HALF_OPEN
success, and on a failure count the 5xx and run `maybe_open_circuit`. -/
def observeResp (now : ℚ) (status : ℕ) (g : GatewayState) : GatewayState :=
  let is_failure := isFailureStatus status
  let g1 := { g with
    failure_window := dequeAppend g.failure_window is_failure,
    circuit_requests_tracked_total := g.circuit_requests_tracked_total + 1 }
  let g2 := if g1.circuit_state = .HALF_OPEN ∧ is_failure = false then
      closeCircuit g1
    else g1
  if is_failure then
    maybe_open_circuit now
      { g2 with upstream_5xx_errors_total := g2.upstream_5xx_errors_total + 1 }
  else g2

/-- The gateway-state updates performed on an upstream timeout
(src/gateway.py lines 307-310): count the timeout, append a failure
to the window, count the tracked request, run `maybe_open_circuit`. -/
def observeTimeout (now : ℚ) (g : GatewayState) : GatewayState :=
  maybe_open_circuit now
    { g with
      upstream_timeouts_total := g.upstream_timeouts_total + 1,
      failure_window := dequeAppend g.failure_window true,
      circuit_requests_tracked_total := g.circuit_requests_tracked_total + 1 }

/-- The return paths of the attempt loop when no retry happens:
returning the upstream response verbatim (lines 300-304), or counting
the exhausted retries and returning 504 (lines 318-319). -/
def finishAttempt (now : ℚ) (o : Outcome) (attempts : ℕ) (g : GatewayState) :
    LoopResult :=
  match o with
  | .resp status content =>
    { status := status, body := content, attempts := attempts,
      state := observeResp now status g }
  | .timeout =>
    let g1 := observeTimeout now g
    { status := 504, body := "Upstream timeout", attempts := attempts,
      state := { g1 with
        upstream_retry_exhausted_total := g1.upstream_retry_exhausted_total + 1 } }

/-- The `upstream_retries_total` increment performed on each retry
(src/gateway.py lines 296 and 314). -/
def retryState (g : GatewayState) : GatewayState :=
  { g with upstream_retries_total := g.upstream_retries_total + 1 }

/-- The `while True` attempt loop (src/gateway.py lines 271-319).
`outcomes n` is what the `n`-th upstream call produces.  `remaining`
is the retry budget still available, i.e. `max_retries - attempts`,
so the source's retry guard `attempts < max_retries` is exactly
`remaining = r + 1`.  A retry increments the `attempts` counter and
`upstream_retries_total` (lines 294-297 and 312-315); the back-off
sleep has no state effect. -/
def attemptLoop (method : String) (outcomes : ℕ → Outcome) (now : ℚ) :
    (remaining : ℕ) → (attempts : ℕ) → GatewayState → LoopResult
  | 0, attempts, g => finishAttempt now (outcomes attempts) attempts g
  | r + 1, attempts, g =>
    match outcomes attempts with
    | .resp status content =>
      if isFailureStatus status && isIdempotent method then
        attemptLoop method outcomes now r (attempts + 1)
          (retryState (observeResp now status g))
      else
        { status := status, body := content, attempts := attempts,
          state := observeResp now status g }
    | .timeout =>
      if isIdempotent method then
        attemptLoop method outcomes now r (attempts + 1)
          (retryState (observeTimeout now g))
      else finishAttempt now .timeout attempts g

/-- Result of the circuit-enforcement block (lines 231-245). -/
inductive AdmissionResult where
  | rejected (status : ℕ) (body : String) (g : GatewayState)
  | admitted (g : GatewayState)
deriving DecidableEq

/-- Circuit enforcement (src/gateway.py lines 231-245): OPEN either
times out into HALF_OPEN or rejects 503; HALF_OPEN with a probe in
flight rejects 503, otherwise marks the probe in flight and admits. -/
def circuit_admission (g : GatewayState) (now : ℚ) : AdmissionResult :=
  if g.circuit_state = .OPEN ∧
      ¬ (CIRCUIT_OPEN_DURATION_SECONDS ≤ now - openedAtD g) then
    .rejected 503 "Circuit open"
      { g with circuit_short_circuited_total := g.circuit_short_circuited_total + 1 }
  else
    let g1 := if g.circuit_state = .OPEN then
        { g with circuit_state := .HALF_OPEN, circuit_state_gauge := 2 }
      else g
    if g1.circuit_state = .HALF_OPEN ∧ g1.half_open_probe_in_flight then
      .rejected 503 "Half-open probe in progress"
        { g1 with circuit_short_circuited_total := g1.circuit_short_circuited_total + 1 }
    else
      .admitted (if g1.circuit_state = .HALF_OPEN then
          { g1 with half_open_probe_in_flight := true }
        else g1)

/-- The gateway state carried by an admission result (both the
rejected and the admitted branch return an updated state). -/
def admissionState : AdmissionResult → GatewayState
  | .rejected _ _ g => g
  | .admitted g => g

structure ProxyResult where
  status : ℕ
  body : String
  /-- number of upstream calls issued (0 when short-circuited) -/
  upstream_attempts : ℕ
  /-- `(timeout, max_retries)` passed to the attempt loop, `none` when
  the upstream was never consulted -/
  effective_params : Option (ℚ × ℕ)
  state : GatewayState
deriving DecidableEq

def ADMIN_PATHS : List String := ["health", "metrics", "debug"]

/-- The `proxy` handler (src/gateway.py lines 222-319) as a pure
function.  `risk` stands for `risk_predictor.predict_risk(features)`
(the features come from the live extractor, external to the handler),
and `outcomes` enumerates the upstream attempt results.  All
`time.time()` reads during the request are modelled as `now`. -/
def proxy (g : GatewayState) (now : ℚ) (path method : String) (risk : ℚ)
    (outcomes : ℕ → Outcome) : ProxyResult :=
  if path ∈ ADMIN_PATHS then
    { status := 404, body := "", upstream_attempts := 0,
      effective_params := none, state := g }
  else
    match circuit_admission g now with
    | .rejected status body g1 =>
      { status := status, body := body, upstream_attempts := 0,
        effective_params := none, state := g1 }
    | .admitted g2 =>
      match request_mode_from_risk risk with
      | .HARD_FAIL =>
        { status := 429, body := "Service temporarily degraded",
          upstream_attempts := 0, effective_params := none,
          state := { g2 with
            circuit_short_circuited_total := g2.circuit_short_circuited_total + 1 } }
      | mode =>
        let timeout := if mode = .DEGRADED then DEGRADED_TIMEOUT_SECONDS
          else UPSTREAM_TIMEOUT_SECONDS
        let max_retries := if mode = .DEGRADED then DEGRADED_MAX_RETRIES
          else MAX_RETRIES
        let r := attemptLoop method outcomes now max_retries 0 g2
        { status := r.status, body := r.body, upstream_attempts := r.attempts + 1,
          effective_params := some (timeout, max_retries), state := r.state }

/- ### Whole-system events (request handling interleaved with the
predictive controller) -/

inductive Event where
  | request (now : ℚ) (path method : String) (risk : ℚ) (outcomes : ℕ → Outcome)
  | tick (now risk threshold : ℚ)

def stepEvent (g : GatewayState) (e : Event) : GatewayState :=
  match e with
  | .request now path method risk outcomes => (proxy g now path method risk outcomes).state
  | .tick now risk threshold => predictiveTick g now risk threshold

def runEvents (g : GatewayState) (es : List Event) : GatewayState :=
  es.foldl stepEvent g

/-- A wedged breaker: HALF_OPEN with the probe flag set.  When no
probe is actually outstanding this state can never change again (see
the C10 theorem). -/
def probeStuck (g : GatewayState) : Prop :=
  g.circuit_state = .HALF_OPEN ∧ g.half_open_probe_in_flight = true

/- ### Concrete states used by witnesses and counterexamples -/

/-- A fresh gateway: breaker CLOSED, empty window, all counters 0
(the module-level initial state of src/gateway.py). -/
def gClosed : GatewayState :=
  { circuit_state := .CLOSED, circuit_opened_at := none,
    half_open_probe_in_flight := false, failure_window := [],
    last_predictive_action := 0, upstream_retries_total := 0,
    upstream_retry_exhausted_total := 0, upstream_timeouts_total := 0,
    upstream_5xx_errors_total := 0, circuit_short_circuited_total := 0,
    circuit_open_total := 0, circuit_requests_tracked_total := 0,
    circuit_state_gauge := 0 }

/-- A HALF_OPEN breaker (opened at time 0, open window elapsed, no
probe in flight), as produced by an OPEN breaker observing a request
after `CIRCUIT_OPEN_DURATION_SECONDS`. -/
def gHalfOpen : GatewayState :=
  { gClosed with
    circuit_state := .HALF_OPEN,
    circuit_opened_at := some 0,
    circuit_state_gauge := 2 }

/-- `gHalfOpen` after the proxy marks the half-open probe in flight
(src/gateway.py line 245). -/
def gHalfOpenProbe : GatewayState :=
  { gHalfOpen with half_open_probe_in_flight := true }

/- ### Helper lemmas -/

theorem maybe_open_circuit_window (now : ℚ) (g : GatewayState) :
    (maybe_open_circuit now g).failure_window = g.failure_window := by
  unfold maybe_open_circuit
  split_ifs <;> rfl

theorem maybe_open_circuit_retries (now : ℚ) (g : GatewayState) :
    (maybe_open_circuit now g).upstream_retries_total = g.upstream_retries_total := by
  unfold maybe_open_circuit
  split_ifs <;> rfl

theorem maybe_open_circuit_last (now : ℚ) (g : GatewayState) :
    (maybe_open_circuit now g).last_predictive_action = g.last_predictive_action := by
  unfold maybe_open_circuit
  split_ifs <;> rfl

theorem maybe_open_circuit_state (now : ℚ) (g : GatewayState) :
    (maybe_open_circuit now g).circuit_state = g.circuit_state ∨
    ((maybe_open_circuit now g).circuit_state = .OPEN ∧ g.circuit_state = .CLOSED) := by
  unfold maybe_open_circuit
  split_ifs with h1 h2
  · exact Or.inr ⟨rfl, h2.2⟩
  · exact Or.inl rfl
  · exact Or.inl rfl

theorem fget_of_missing : ∀ (f : List (String × ℚ)) (name : String) (d : ℚ),
    (∀ kv ∈ f, kv.1 ≠ name) → fget f name d = d
  | [], _, _, _ => rfl
  | (k, v) :: rest, name, d, h => by
    have h1 : k ≠ name := h (k, v) (List.mem_cons_self _ _)
    have h2 : ∀ kv ∈ rest, kv.1 ≠ name :=
      fun kv hkv => h kv (List.mem_cons_of_mem _ hkv)
    simp only [fget, if_neg h1]
    exact fget_of_missing rest name d h2

/- ### Claim theorems -/

/-- C6: for every feature-vector input, `compute_threshold` (with the
default construction) returns a value in the closed interval
[0.4, 0.9] that is a whole number of hundredths (rounded to 2
decimals), and for the empty feature vector it returns the base
threshold 0.7. -/
theorem C6_compute_threshold_bounds (features : List (String × ℚ)) :
    2/5 ≤ compute_threshold defaultAdaptiveController features ∧
    compute_threshold defaultAdaptiveController features ≤ 9/10 ∧
    (compute_threshold defaultAdaptiveController features * 100).den = 1 ∧
    compute_threshold defaultAdaptiveController [] = 7/10 := by
  have hempty : compute_threshold defaultAdaptiveController [] = 7/10 := by
    simp [compute_threshold, defaultAdaptiveController]
  refine ⟨?_, ?_, ?_, hempty⟩ <;>
  · simp only [compute_threshold, defaultAdaptiveController]
    split_ifs <;> norm_num [round2, round_eq, max_def, min_def]

/-- C4: `predict_risk` is a total function (the Lean embedding cannot
raise) and, given that the model returns a probability in [0,1]
whenever it does not raise, returns a value in [0,1]; it returns 0 on
the empty feature vector, its result depends only on the values the
input assigns to the model's `feature_names` (extra keys are ignored),
`fget` substitutes 0 for names missing from the input, and it returns
0 whenever the model raises. -/
theorem C4_predict_risk_safe (p : FailureRiskPredictor)
    (features : List (String × ℚ))
    (hmodel : ∀ row q, p.predict_proba_one row = some q → 0 ≤ q ∧ q ≤ 1) :
    (0 ≤ predict_risk p features ∧ predict_risk p features ≤ 1) ∧
    predict_risk p [] = 0 ∧
    (∀ f1 f2 : List (String × ℚ), f1 ≠ [] → f2 ≠ [] →
      (∀ name ∈ p.feature_names, fget f1 name 0 = fget f2 name 0) →
      predict_risk p f1 = predict_risk p f2) ∧
    (∀ (f : List (String × ℚ)) (name : String),
      (∀ kv ∈ f, kv.1 ≠ name) → fget f name 0 = 0) ∧
    (features ≠ [] →
      p.predict_proba_one
        (p.feature_names.map (fun name => fget features name 0)) = none →
      predict_risk p features = 0) := by
  refine ⟨?_, by simp [predict_risk], ?_, ?_, ?_⟩
  · unfold predict_risk
    split_ifs with h
    · norm_num
    · rcases hrow : p.predict_proba_one
        (p.feature_names.map (fun name => fget features name 0)) with _ | q
      · simp [hrow]
      · simpa [hrow] using hmodel _ _ hrow
  · intro f1 f2 h1 h2 hagree
    unfold predict_risk
    rw [if_neg h1, if_neg h2, List.map_congr_left (fun name hn => hagree name hn)]
  · exact fun f name h => fget_of_missing f name 0 h
  · intro hne hnone
    simp [predict_risk, if_neg hne, hnone]

/-- C4 witness: a concrete predictor (one feature name, a model that
always answers probability 1/2) and a concrete nonempty feature
vector. -/
theorem C4_predict_risk_safe_witness :
    (0 ≤ predict_risk ⟨["failure_ratio"], fun _ => some (1/2)⟩ [("failure_ratio", 3)] ∧
      predict_risk ⟨["failure_ratio"], fun _ => some (1/2)⟩ [("failure_ratio", 3)] ≤ 1) ∧
    predict_risk ⟨["failure_ratio"], fun _ => some (1/2)⟩ [] = 0 ∧
    (∀ f1 f2 : List (String × ℚ), f1 ≠ [] → f2 ≠ [] →
      (∀ name ∈ (["failure_ratio"] : List String), fget f1 name 0 = fget f2 name 0) →
      predict_risk ⟨["failure_ratio"], fun _ => some (1/2)⟩ f1 =
        predict_risk ⟨["failure_ratio"], fun _ => some (1/2)⟩ f2) ∧
    (∀ (f : List (String × ℚ)) (name : String),
      (∀ kv ∈ f, kv.1 ≠ name) → fget f name 0 = 0) ∧
    ([(("failure_ratio" : String), (3 : ℚ))] ≠ [] →
      (fun _ => some (1/2 : ℚ))
        ((["failure_ratio"] : List String).map
          (fun name => fget [("failure_ratio", 3)] name 0)) = none →
      predict_risk ⟨["failure_ratio"], fun _ => some (1/2)⟩ [("failure_ratio", 3)] = 0) :=
  C4_predict_risk_safe ⟨["failure_ratio"], fun _ => some (1/2)⟩ [("failure_ratio", 3)]
    (fun _ q h => by
      have hq : q = 1/2 := by simpa using h.symm
      norm_num [hq])

/-- C5 counterexample: the claim says every path under `debug/` gets a
404 from the proxy route rather than being forwarded upstream, but the
proxy's filter is the exact-match list `["health", "metrics", "debug"]`
(src/gateway.py line 226): a request for path `debug/features` reaching
the proxy handler is forwarded (one upstream attempt, upstream answer
200 returned), not answered 404. -/
theorem C5_counterexample :
    (proxy gClosed 0 "debug/features" "GET" 0 (fun _ => .resp 200 "ok")).status = 200 ∧
    (proxy gClosed 0 "debug/features" "GET" 0 (fun _ => .resp 200 "ok")).upstream_attempts = 1 := by
  have hadm : circuit_admission gClosed 0 = .admitted gClosed := by
    simp [circuit_admission, gClosed]
  have hmode : request_mode_from_risk 0 = .NORMAL := by
    norm_num [request_mode_from_risk, HARD_RISK_THRESHOLD, SOFT_RISK_THRESHOLD]
  have hloop : ∀ g : GatewayState,
      attemptLoop "GET" (fun _ => .resp 200 "ok") 0 MAX_RETRIES 0 g =
      { status := 200, body := "ok", attempts := 0, state := observeResp 0 200 g } := by
    intro g
    simp [attemptLoop, MAX_RETRIES, isFailureStatus]
  simp [proxy, ADMIN_PATHS, hadm, hmode, hloop]

/-- C5 (amended): every request whose path is exactly `health`,
`metrics` or `debug` receives a 404 from the proxy route, with no
upstream attempt and no state change; paths strictly under `debug/`
are not filtered by the proxy route (see the counterexample). -/
theorem C5_admin_paths_filtered (g : GatewayState) (now : ℚ)
    (path method : String) (risk : ℚ) (outcomes : ℕ → Outcome)
    (h : path ∈ ADMIN_PATHS) :
    (proxy g now path method risk outcomes).status = 404 ∧
    (proxy g now path method risk outcomes).upstream_attempts = 0 ∧
    (proxy g now path method risk outcomes).effective_params = none ∧
    (proxy g now path method risk outcomes).state = g := by
  simp [proxy, h]

/-- C5 witness: the `health` path at a concrete state. -/
theorem C5_admin_paths_filtered_witness :
    (proxy gClosed 0 "health" "GET" 0 (fun _ => .resp 200 "ok")).status = 404 ∧
    (proxy gClosed 0 "health" "GET" 0 (fun _ => .resp 200 "ok")).upstream_attempts = 0 ∧
    (proxy gClosed 0 "health" "GET" 0 (fun _ => .resp 200 "ok")).effective_params = none ∧
    (proxy gClosed 0 "health" "GET" 0 (fun _ => .resp 200 "ok")).state = gClosed :=
  C5_admin_paths_filtered gClosed 0 "health" "GET" 0 (fun _ => .resp 200 "ok")
    (by simp [ADMIN_PATHS])

/-- C3: for every request that passes circuit admission, the mode is
derived deterministically from risk: risk ≥ 0.70 is rejected 429 with
body "Service temporarily degraded", counts a short-circuit and never
contacts the upstream; 0.45 ≤ risk < 0.70 runs the attempt loop with
effective timeout 1.0 s and max_retries 0; risk < 0.45 runs it with
effective timeout 2.0 s and max_retries 2. -/
theorem C3_risk_modes (g g2 : GatewayState) (now : ℚ) (path method : String)
    (risk : ℚ) (outcomes : ℕ → Outcome)
    (hpath : path ∉ ADMIN_PATHS)
    (hadm : circuit_admission g now = .admitted g2) :
    (HARD_RISK_THRESHOLD ≤ risk →
      (proxy g now path method risk outcomes).status = 429 ∧
      (proxy g now path method risk outcomes).body = "Service temporarily degraded" ∧
      (proxy g now path method risk outcomes).state.circuit_short_circuited_total =
        g2.circuit_short_circuited_total + 1 ∧
      (proxy g now path method risk outcomes).upstream_attempts = 0 ∧
      (proxy g now path method risk outcomes).effective_params = none) ∧
    (SOFT_RISK_THRESHOLD ≤ risk → risk < HARD_RISK_THRESHOLD →
      (proxy g now path method risk outcomes).effective_params = some (1, 0)) ∧
    (risk < SOFT_RISK_THRESHOLD →
      (proxy g now path method risk outcomes).effective_params = some (2, 2)) := by
  refine ⟨?_, ?_, ?_⟩
  · intro hr
    have hmode : request_mode_from_risk risk = .HARD_FAIL := by
      simp [request_mode_from_risk, hr]
    simp [proxy, hpath, hadm, hmode]
  · intro h1 h2
    have hmode : request_mode_from_risk risk = .DEGRADED := by
      simp [request_mode_from_risk, h1, not_le.mpr h2]
    simp [proxy, hpath, hadm, hmode, DEGRADED_TIMEOUT_SECONDS, DEGRADED_MAX_RETRIES]
  · intro h1
    have h2 : ¬ SOFT_RISK_THRESHOLD ≤ risk := not_le.mpr h1
    have h3 : ¬ HARD_RISK_THRESHOLD ≤ risk := by
      intro hc
      exact h2 (le_trans (by norm_num [SOFT_RISK_THRESHOLD, HARD_RISK_THRESHOLD]) hc)
    have hmode : request_mode_from_risk risk = .NORMAL := by
      simp [request_mode_from_risk, h2, h3]
    simp [proxy, hpath, hadm, hmode, UPSTREAM_TIMEOUT_SECONDS, MAX_RETRIES]

/-- C3 witness: a hard-fail request (risk 0.8) on a fresh CLOSED
gateway. -/
theorem C3_risk_modes_witness :
    ((HARD_RISK_THRESHOLD ≤ (8/10 : ℚ) →
      (proxy gClosed 0 "x" "GET" (8/10) (fun _ => .resp 200 "ok")).status = 429 ∧
      (proxy gClosed 0 "x" "GET" (8/10) (fun _ => .resp 200 "ok")).body =
        "Service temporarily degraded" ∧
      (proxy gClosed 0 "x" "GET" (8/10)
          (fun _ => .resp 200 "ok")).state.circuit_short_circuited_total =
        gClosed.circuit_short_circuited_total + 1 ∧
      (proxy gClosed 0 "x" "GET" (8/10) (fun _ => .resp 200 "ok")).upstream_attempts = 0 ∧
      (proxy gClosed 0 "x" "GET" (8/10) (fun _ => .resp 200 "ok")).effective_params = none) ∧
    (SOFT_RISK_THRESHOLD ≤ (8/10 : ℚ) → (8/10 : ℚ) < HARD_RISK_THRESHOLD →
      (proxy gClosed 0 "x" "GET" (8/10) (fun _ => .resp 200 "ok")).effective_params =
        some (1, 0)) ∧
    ((8/10 : ℚ) < SOFT_RISK_THRESHOLD →
      (proxy gClosed 0 "x" "GET" (8/10) (fun _ => .resp 200 "ok")).effective_params =
        some (2, 2))) ∧
    HARD_RISK_THRESHOLD ≤ (8/10 : ℚ) :=
  ⟨C3_risk_modes gClosed gClosed 0 "x" "GET" (8/10) (fun _ => .resp 200 "ok")
      (by simp [ADMIN_PATHS]) (by simp [circuit_admission, gClosed]),
    by norm_num [HARD_RISK_THRESHOLD]⟩

theorem observeResp_retries (now : ℚ) (status : ℕ) (g : GatewayState) :
    (observeResp now status g).upstream_retries_total = g.upstream_retries_total := by
  simp only [observeResp]
  split_ifs <;> simp [closeCircuit, maybe_open_circuit_retries]

theorem observeTimeout_retries (now : ℚ) (g : GatewayState) :
    (observeTimeout now g).upstream_retries_total = g.upstream_retries_total := by
  simp [observeTimeout, maybe_open_circuit_retries]

theorem attemptLoop_attempts_not_idem (method : String) (outcomes : ℕ → Outcome)
    (now : ℚ) (h : isIdempotent method = false) :
    ∀ remaining attempts g,
      (attemptLoop method outcomes now remaining attempts g).attempts = attempts := by
  intro remaining attempts g
  cases remaining with
  | zero => cases ho : outcomes attempts <;> simp [attemptLoop, finishAttempt, ho]
  | succ r => cases ho : outcomes attempts <;> simp [attemptLoop, finishAttempt, ho, h]

theorem attemptLoop_retries_not_idem (method : String) (outcomes : ℕ → Outcome)
    (now : ℚ) (h : isIdempotent method = false) :
    ∀ remaining attempts g,
      (attemptLoop method outcomes now remaining attempts g).state.upstream_retries_total =
        g.upstream_retries_total := by
  intro remaining attempts g
  cases remaining with
  | zero =>
    cases ho : outcomes attempts <;>
      simp [attemptLoop, finishAttempt, ho, observeResp_retries, observeTimeout_retries]
  | succ r =>
    cases ho : outcomes attempts <;>
      simp [attemptLoop, finishAttempt, ho, h, observeResp_retries, observeTimeout_retries]

theorem circuit_admission_retries (g : GatewayState) (now : ℚ) :
    (admissionState (circuit_admission g now)).upstream_retries_total =
      g.upstream_retries_total := by
  unfold circuit_admission
  split_ifs <;> simp [admissionState, apply_ite admissionState] <;>
    split_ifs <;> simp [admissionState]

/-- C8: non-idempotent methods (POST, PUT, DELETE, PATCH) are never
retried: whenever the attempt loop runs it performs exactly one
upstream attempt, and `upstream_retries_total` is unchanged for the
request, whatever the outcomes. -/
theorem C8_non_idempotent_never_retried (g : GatewayState) (now : ℚ)
    (path method : String) (risk : ℚ) (outcomes : ℕ → Outcome)
    (h : method ∈ ["POST", "PUT", "DELETE", "PATCH"]) :
    (proxy g now path method risk outcomes).upstream_attempts ≤ 1 ∧
    ((proxy g now path method risk outcomes).effective_params ≠ none →
      (proxy g now path method risk outcomes).upstream_attempts = 1) ∧
    (proxy g now path method risk outcomes).state.upstream_retries_total =
      g.upstream_retries_total := by
  have hid : isIdempotent method = false := by
    simp only [List.mem_cons, List.not_mem_nil, or_false] at h
    rcases h with h | h | h | h <;>
      simp [h, isIdempotent, IDEMPOTENT_METHODS]
  unfold proxy
  split
  · simp
  · have hadm := circuit_admission_retries g now
    split
    · next status body g1 heq =>
      rw [heq] at hadm
      simp [admissionState] at hadm
      simp [hadm]
    · next g2 heq =>
      rw [heq] at hadm
      simp [admissionState] at hadm
      split
      · simp [hadm]
      · simp [attemptLoop_attempts_not_idem method outcomes now hid,
          attemptLoop_retries_not_idem method outcomes now hid, hadm]

/-- C8 witness: a POST whose upstream answers 500. -/
theorem C8_non_idempotent_never_retried_witness :
    (proxy gClosed 0 "x" "POST" 0 (fun _ => .resp 500 "err")).upstream_attempts ≤ 1 ∧
    ((proxy gClosed 0 "x" "POST" 0 (fun _ => .resp 500 "err")).effective_params ≠ none →
      (proxy gClosed 0 "x" "POST" 0 (fun _ => .resp 500 "err")).upstream_attempts = 1) ∧
    (proxy gClosed 0 "x" "POST" 0
        (fun _ => .resp 500 "err")).state.upstream_retries_total =
      gClosed.upstream_retries_total :=
  C8_non_idempotent_never_retried gClosed 0 "x" "POST" 0 (fun _ => .resp 500 "err")
    (by simp)

theorem observeResp_last (now : ℚ) (status : ℕ) (g : GatewayState) :
    (observeResp now status g).last_predictive_action = g.last_predictive_action := by
  simp only [observeResp]
  split_ifs <;> simp [closeCircuit, maybe_open_circuit_last]

theorem observeTimeout_last (now : ℚ) (g : GatewayState) :
    (observeTimeout now g).last_predictive_action = g.last_predictive_action := by
  simp [observeTimeout, maybe_open_circuit_last]

theorem attemptLoop_last (method : String) (outcomes : ℕ → Outcome) (now : ℚ) :
    ∀ remaining attempts g,
      (attemptLoop method outcomes now remaining attempts g).state.last_predictive_action =
        g.last_predictive_action := by
  intro remaining
  induction remaining with
  | zero =>
    intro attempts g
    cases ho : outcomes attempts <;>
      simp [attemptLoop, finishAttempt, ho, observeResp_last, observeTimeout_last]
  | succ r ih =>
    intro attempts g
    cases ho : outcomes attempts with
    | resp status content =>
      by_cases hf : (isFailureStatus status && isIdempotent method) = true
      · simp [attemptLoop, ho, hf, ih, retryState, observeResp_last]
      · simp [attemptLoop, ho, hf, observeResp_last]
    | timeout =>
      by_cases hi : isIdempotent method = true
      · simp [attemptLoop, ho, hi, ih, retryState, observeTimeout_last]
      · simp [attemptLoop, finishAttempt, ho, hi, observeTimeout_last]

theorem circuit_admission_last (g : GatewayState) (now : ℚ) :
    (admissionState (circuit_admission g now)).last_predictive_action =
      g.last_predictive_action := by
  unfold circuit_admission
  split_ifs <;> simp [admissionState, apply_ite admissionState] <;>
    split_ifs <;> simp [admissionState]

theorem proxy_last (g : GatewayState) (now : ℚ) (path method : String)
    (risk : ℚ) (outcomes : ℕ → Outcome) :
    (proxy g now path method risk outcomes).state.last_predictive_action =
      g.last_predictive_action := by
  unfold proxy
  split
  · rfl
  · have hadm := circuit_admission_last g now
    split
    · next status body g1 heq =>
      rw [heq] at hadm
      simpa [admissionState] using hadm
    · next g2 heq =>
      rw [heq] at hadm
      simp [admissionState] at hadm
      split
      · simpa using hadm
      · simp [attemptLoop_last, hadm]

theorem predictiveTick_opens_iff (g : GatewayState) (now risk threshold : ℚ) :
    (predictiveTick g now risk threshold).circuit_open_total =
        g.circuit_open_total + 1 ↔
      (g.circuit_state = .CLOSED ∧
        ¬ (now - g.last_predictive_action < PREDICTIVE_COOLDOWN) ∧
        threshold ≤ risk) := by
  unfold predictiveTick
  split_ifs with h1 h2 h3 <;> simp_all

/-- C7: one tick of the predictive controller transitions the breaker
to OPEN exactly when the breaker is CLOSED, at least 30 s
(PREDICTIVE_COOLDOWN) have passed since last_predictive_action, and
risk ≥ threshold; on opening it sets last_predictive_action to the
tick time, increments circuit_open_total and sets the gauge to 1.
The proxy handler never changes last_predictive_action, and two
opening ticks are at least PREDICTIVE_COOLDOWN apart. -/
theorem C7_predictive_cooldown (g : GatewayState) (now risk threshold : ℚ) :
    ((predictiveTick g now risk threshold).circuit_open_total =
        g.circuit_open_total + 1 ↔
      (g.circuit_state = .CLOSED ∧
        ¬ (now - g.last_predictive_action < PREDICTIVE_COOLDOWN) ∧
        threshold ≤ risk)) ∧
    (g.circuit_state = .CLOSED →
      ¬ (now - g.last_predictive_action < PREDICTIVE_COOLDOWN) →
      threshold ≤ risk →
      (predictiveTick g now risk threshold).circuit_state = .OPEN ∧
      (predictiveTick g now risk threshold).last_predictive_action = now ∧
      (predictiveTick g now risk threshold).circuit_state_gauge = 1 ∧
      (predictiveTick g now risk threshold).circuit_opened_at = some now) ∧
    (∀ (now2 : ℚ) (path method : String) (risk2 : ℚ) (outcomes : ℕ → Outcome),
      (proxy g now2 path method risk2 outcomes).state.last_predictive_action =
        g.last_predictive_action) ∧
    (∀ (g2 : GatewayState) (now2 risk2 threshold2 : ℚ),
      (predictiveTick g now risk threshold).circuit_open_total =
        g.circuit_open_total + 1 →
      g2.last_predictive_action = now →
      (predictiveTick g2 now2 risk2 threshold2).circuit_open_total =
        g2.circuit_open_total + 1 →
      PREDICTIVE_COOLDOWN ≤ now2 - now) := by
  refine ⟨predictiveTick_opens_iff g now risk threshold, ?_, ?_, ?_⟩
  · intro h1 h2 h3
    unfold predictiveTick
    rw [if_neg (by simp [h1]), if_neg (by simpa using h2), if_pos h3]
    simp
  · intro now2 path method risk2 outcomes
    exact proxy_last g now2 path method risk2 outcomes
  · intro g2 now2 risk2 threshold2 h1 h2 h3
    have c2 := (predictiveTick_opens_iff g2 now2 risk2 threshold2).mp h3
    have := c2.2.1
    rw [h2] at this
    exact not_lt.mp this

/-- C7 witness: a CLOSED breaker with cooldown elapsed and risk above
threshold opens. -/
theorem C7_predictive_cooldown_witness :
    (predictiveTick gClosed 40 (8/10) (1/2)).circuit_open_total =
      gClosed.circuit_open_total + 1 :=
  (C7_predictive_cooldown gClosed 40 (8/10) (1/2)).1.mpr
    ⟨rfl, by norm_num [gClosed, PREDICTIVE_COOLDOWN], by norm_num⟩

theorem maybe_open_circuit_not_closed (now : ℚ) (g : GatewayState)
    (h : g.circuit_state ≠ .CLOSED) : maybe_open_circuit now g = g := by
  unfold maybe_open_circuit
  split_ifs with h1 h2
  · exact absurd h2.2 h
  · rfl
  · rfl

theorem observeTimeout_not_closed (now : ℚ) (g : GatewayState)
    (h : g.circuit_state ≠ .CLOSED) :
    observeTimeout now g =
      { g with
        upstream_timeouts_total := g.upstream_timeouts_total + 1,
        failure_window := dequeAppend g.failure_window true,
        circuit_requests_tracked_total := g.circuit_requests_tracked_total + 1 } := by
  unfold observeTimeout
  exact maybe_open_circuit_not_closed now _ (by simpa using h)

theorem attemptLoop_all_timeout_half_open (method : String)
    (outcomes : ℕ → Outcome) (now : ℚ) (hto : ∀ n, outcomes n = .timeout) :
    ∀ remaining attempts (g : GatewayState), g.circuit_state = .HALF_OPEN →
      (attemptLoop method outcomes now remaining attempts g).status = 504 ∧
      (attemptLoop method outcomes now remaining attempts g).state.circuit_state =
        .HALF_OPEN ∧
      (attemptLoop method outcomes now remaining attempts
          g).state.half_open_probe_in_flight = g.half_open_probe_in_flight ∧
      (attemptLoop method outcomes now remaining attempts g).state.circuit_state_gauge =
        g.circuit_state_gauge ∧
      (attemptLoop method outcomes now remaining attempts g).state.circuit_opened_at =
        g.circuit_opened_at ∧
      (attemptLoop method outcomes now remaining attempts g).state.circuit_open_total =
        g.circuit_open_total ∧
      (attemptLoop method outcomes now remaining attempts
          g).state.upstream_retry_exhausted_total =
        g.upstream_retry_exhausted_total + 1 := by
  intro remaining
  induction remaining with
  | zero =>
    intro attempts g hg
    simp [attemptLoop, finishAttempt, hto, observeTimeout_not_closed, hg]
  | succ r ih =>
    intro attempts g hg
    by_cases hi : isIdempotent method = true
    · have hrec := ih (attempts + 1) (retryState (observeTimeout now g))
        (by simp [retryState, observeTimeout_not_closed now g (by simp [hg]), hg])
      simp only [attemptLoop, hto, hi, if_true] at hrec ⊢
      simpa [retryState, observeTimeout_not_closed now g (by simp [hg]), hg] using hrec
    · simp [attemptLoop, finishAttempt, hto, hi, observeTimeout_not_closed, hg]

/-- C2 (code bug): with the breaker HALF_OPEN and the admitted probe
(a GET at risk 0, now = 100) timing out on all attempts, the handler
returns 504 but the breaker is NOT transitioned to OPEN:
circuit_state stays HALF_OPEN, probe_in_flight is left true, the
gauge is unchanged (2), opened_at is unchanged (some 0, not now) and
circuit_open_total is unchanged — `maybe_open_circuit` only fires
from CLOSED and nothing in the timeout branch handles HALF_OPEN.  The
spec requires OPEN with opened_at = now, probe_in_flight = false,
gauge 1, counter incremented. -/
theorem C2_half_open_probe_timeout_bug :
    (proxy gHalfOpen 100 "x" "GET" 0 (fun _ => .timeout)).status = 504 ∧
    (proxy gHalfOpen 100 "x" "GET" 0 (fun _ => .timeout)).state.circuit_state =
      .HALF_OPEN ∧
    (proxy gHalfOpen 100 "x" "GET" 0 (fun _ => .timeout)).state.half_open_probe_in_flight =
      true ∧
    (proxy gHalfOpen 100 "x" "GET" 0 (fun _ => .timeout)).state.circuit_state_gauge = 2 ∧
    (proxy gHalfOpen 100 "x" "GET" 0 (fun _ => .timeout)).state.circuit_opened_at =
      some 0 ∧
    (proxy gHalfOpen 100 "x" "GET" 0 (fun _ => .timeout)).state.circuit_open_total = 0 ∧
    (proxy gHalfOpen 100 "x" "GET" 0
        (fun _ => .timeout)).state.upstream_retry_exhausted_total = 1 := by
  have hadm : circuit_admission gHalfOpen 100 = .admitted gHalfOpenProbe := by
    simp [circuit_admission, gHalfOpenProbe, gHalfOpen, gClosed]
  have hmode : request_mode_from_risk 0 = .NORMAL := by
    norm_num [request_mode_from_risk, HARD_RISK_THRESHOLD, SOFT_RISK_THRESHOLD]
  obtain ⟨h1, h2, h3, h4, h5, h6, h7⟩ :=
    attemptLoop_all_timeout_half_open "GET" (fun _ => .timeout) 100 (fun _ => rfl)
      MAX_RETRIES 0 gHalfOpenProbe
      (by simp [gHalfOpenProbe, gHalfOpen, gClosed])
  refine ⟨?_, ?_, ?_, ?_, ?_, ?_, ?_⟩ <;>
    simp only [proxy, hadm, hmode] <;>
    simp [ADMIN_PATHS] <;>
    (first
      | exact h1
      | rw [h2]
      | rw [h3]
      | rw [h4]
      | rw [h5]
      | rw [h6]
      | rw [h7]) <;>
    simp [gHalfOpenProbe, gHalfOpen, gClosed]

/-- C9 (code bug): the row sampled at ts = 0 is written at t_w = 30
(so t_w − ts ≥ label_window holds), but its label is computed from the
feature vector sampled at ts — here failure_ratio 0, giving label 0 —
even though the conditions observed after ts (the features current at
the write time) have failure_ratio 1 ≥ failure_threshold.  The label
therefore does not reflect future observed conditions, contradicting
the claim and the code's own CSV header `label_failure_next_30s`. -/
theorem C9_label_uses_sampled_features :
    (log_once (1/2) 30 [(0, [("failure_ratio", 0)])] 30 [("failure_ratio", 1)]).2 =
      [(0, [("failure_ratio", 0)], 0)] ∧
    (∀ e ∈ (log_once (1/2) 30 [(0, [("failure_ratio", 0)])] 30
        [("failure_ratio", 1)]).2, (30 : ℚ) ≤ 30 - e.1) ∧
    (1/2 : ℚ) ≤ fget [("failure_ratio", 1)] "failure_ratio" 0 := by
  refine ⟨?_, ?_, by norm_num [fget]⟩ <;>
    norm_num [log_once, label_of, fget]

theorem proxy_probeStuck (g : GatewayState) (now : ℚ) (path method : String)
    (risk : ℚ) (outcomes : ℕ → Outcome) (h : probeStuck g) :
    probeStuck (proxy g now path method risk outcomes).state ∧
    (path ∉ ADMIN_PATHS →
      (proxy g now path method risk outcomes).status = 503 ∧
      (proxy g now path method risk outcomes).body = "Half-open probe in progress") := by
  obtain ⟨h1, h2⟩ := h
  by_cases hp : path ∈ ADMIN_PATHS
  · exact ⟨by simp [proxy, hp, probeStuck, h1, h2], fun hc => absurd hp hc⟩
  · have hadm : circuit_admission g now = .rejected 503 "Half-open probe in progress"
        { g with circuit_short_circuited_total := g.circuit_short_circuited_total + 1 } := by
      simp [circuit_admission, h1, h2]
    exact ⟨by simp [proxy, hp, hadm, probeStuck, h1, h2],
      fun _ => by simp [proxy, hp, hadm]⟩

theorem predictiveTick_probeStuck (g : GatewayState) (now risk threshold : ℚ)
    (h : probeStuck g) : probeStuck (predictiveTick g now risk threshold) := by
  obtain ⟨h1, h2⟩ := h
  simp [predictiveTick, probeStuck, h1, h2]

theorem stepEvent_probeStuck (g : GatewayState) (e : Event) (h : probeStuck g) :
    probeStuck (stepEvent g e) := by
  cases e with
  | request now path method risk outcomes =>
    exact (proxy_probeStuck g now path method risk outcomes h).1
  | tick now risk threshold => exact predictiveTick_probeStuck g now risk threshold h

theorem runEvents_probeStuck :
    ∀ (es : List Event) (g : GatewayState), probeStuck g →
      probeStuck (runEvents g es)
  | [], _, h => h
  | e :: es, g, h =>
    runEvents_probeStuck es (stepEvent g e) (stepEvent_probeStuck g e h)

/-- C10: when a request arrives at a HALF_OPEN breaker with no probe
in flight and its risk is ≥ HARD_RISK_THRESHOLD, the handler first
sets probe_in_flight (line 245) and then returns 429 from the
HARD_FAIL branch (line 254) without resetting it; afterwards the
breaker is HALF_OPEN with probe_in_flight true although no probe is
outstanding, and under every further sequence of requests and
predictive ticks it stays that way, every non-admin request being
rejected 503. -/
theorem C10_half_open_hard_fail_wedges_breaker (g : GatewayState) (now : ℚ)
    (path method : String) (risk : ℚ) (outcomes : ℕ → Outcome)
    (h1 : g.circuit_state = .HALF_OPEN)
    (h2 : g.half_open_probe_in_flight = false)
    (h3 : HARD_RISK_THRESHOLD ≤ risk)
    (h4 : path ∉ ADMIN_PATHS) :
    (proxy g now path method risk outcomes).status = 429 ∧
    (proxy g now path method risk outcomes).state.circuit_state = .HALF_OPEN ∧
    (proxy g now path method risk outcomes).state.half_open_probe_in_flight = true ∧
    (∀ es : List Event,
      (runEvents (proxy g now path method risk outcomes).state es).circuit_state =
        .HALF_OPEN ∧
      (runEvents (proxy g now path method risk outcomes).state
          es).half_open_probe_in_flight = true ∧
      (∀ (now2 : ℚ) (path2 method2 : String) (risk2 : ℚ) (outcomes2 : ℕ → Outcome),
        path2 ∉ ADMIN_PATHS →
        (proxy (runEvents (proxy g now path method risk outcomes).state es)
            now2 path2 method2 risk2 outcomes2).status = 503)) := by
  have hadm : circuit_admission g now =
      .admitted { g with half_open_probe_in_flight := true } := by
    simp [circuit_admission, h1, h2]
  have hmode : request_mode_from_risk risk = .HARD_FAIL := by
    simp [request_mode_from_risk, h3]
  have hstuck : probeStuck (proxy g now path method risk outcomes).state := by
    constructor <;> simp [proxy, h4, hadm, hmode, h1]
  refine ⟨by simp [proxy, h4, hadm, hmode], by simp [proxy, h4, hadm, hmode, h1],
    by simp [proxy, h4, hadm, hmode], ?_⟩
  intro es
  have h5 := runEvents_probeStuck es _ hstuck
  exact ⟨h5.1, h5.2, fun now2 path2 method2 risk2 outcomes2 hp2 =>
    ((proxy_probeStuck _ now2 path2 method2 risk2 outcomes2 h5).2 hp2).1⟩

/-- C10 witness: a concrete HALF_OPEN gateway, risk exactly 0.7. -/
theorem C10_half_open_hard_fail_wedges_breaker_witness :
    (proxy gHalfOpen 100 "x" "GET" (7/10) (fun _ => .resp 200 "ok")).status = 429 ∧
    (proxy gHalfOpen 100 "x" "GET" (7/10)
        (fun _ => .resp 200 "ok")).state.circuit_state = .HALF_OPEN ∧
    (proxy gHalfOpen 100 "x" "GET" (7/10)
        (fun _ => .resp 200 "ok")).state.half_open_probe_in_flight = true ∧
    (∀ es : List Event,
      (runEvents (proxy gHalfOpen 100 "x" "GET" (7/10)
          (fun _ => .resp 200 "ok")).state es).circuit_state = .HALF_OPEN ∧
      (runEvents (proxy gHalfOpen 100 "x" "GET" (7/10)
          (fun _ => .resp 200 "ok")).state es).half_open_probe_in_flight = true ∧
      (∀ (now2 : ℚ) (path2 method2 : String) (risk2 : ℚ) (outcomes2 : ℕ → Outcome),
        path2 ∉ ADMIN_PATHS →
        (proxy (runEvents (proxy gHalfOpen 100 "x" "GET" (7/10)
            (fun _ => .resp 200 "ok")).state es)
            now2 path2 method2 risk2 outcomes2).status = 503)) :=
  C10_half_open_hard_fail_wedges_breaker gHalfOpen 100 "x" "GET" (7/10)
    (fun _ => .resp 200 "ok")
    (by simp [gHalfOpen, gClosed]) (by simp [gHalfOpen, gClosed])
    (le_refl _) (by simp [ADMIN_PATHS])

theorem dequeAppend_length (w : List Bool) (b : Bool) :
    (dequeAppend w b).length = min CIRCUIT_WINDOW_SIZE (w.length + 1) := by
  simp only [dequeAppend]
  split_ifs with h <;> simp_all [List.length_drop] <;> omega

theorem maybe_open_circuit_not_half_open (now : ℚ) (g : GatewayState)
    (h : g.circuit_state ≠ .HALF_OPEN) :
    (maybe_open_circuit now g).circuit_state ≠ .HALF_OPEN := by
  rcases maybe_open_circuit_state now g with h1 | ⟨h1, _⟩ <;> rw [h1] <;> simp_all

theorem observeResp_spec_not_half_open (now : ℚ) (status : ℕ) (g : GatewayState)
    (h : g.circuit_state ≠ .HALF_OPEN) :
    (observeResp now status g).failure_window =
      dequeAppend g.failure_window (isFailureStatus status) ∧
    (observeResp now status g).circuit_state ≠ .HALF_OPEN ∧
    (observeResp now status g).upstream_retries_total = g.upstream_retries_total := by
  simp only [observeResp]
  split_ifs with h1 h2 <;>
    refine ⟨?_, ?_, ?_⟩ <;>
    first
      | (simp_all [closeCircuit, maybe_open_circuit_window,
          maybe_open_circuit_retries]; done)
      | exact maybe_open_circuit_not_half_open now _ (by simp_all)

theorem observeTimeout_spec_not_half_open (now : ℚ) (g : GatewayState)
    (h : g.circuit_state ≠ .HALF_OPEN) :
    (observeTimeout now g).failure_window = dequeAppend g.failure_window true ∧
    (observeTimeout now g).circuit_state ≠ .HALF_OPEN ∧
    (observeTimeout now g).upstream_retries_total = g.upstream_retries_total := by
  unfold observeTimeout
  exact ⟨by simp [maybe_open_circuit_window],
    maybe_open_circuit_not_half_open now _ (by simpa using h),
    by simp [maybe_open_circuit_retries]⟩

/-- Per-attempt window accounting of the attempt loop, away from
HALF_OPEN (so the window is never cleared): each upstream attempt
appends exactly one boolean (the window is capped at
CIRCUIT_WINDOW_SIZE) and each retry increments
`upstream_retries_total` by one. -/
theorem attemptLoop_window_spec (method : String) (outcomes : ℕ → Outcome)
    (now : ℚ) :
    ∀ remaining attempts (g : GatewayState), g.circuit_state ≠ .HALF_OPEN →
      g.failure_window.length ≤ CIRCUIT_WINDOW_SIZE →
      attempts ≤ (attemptLoop method outcomes now remaining attempts g).attempts ∧
      (attemptLoop method outcomes now remaining attempts
          g).state.failure_window.length =
        min CIRCUIT_WINDOW_SIZE
          (g.failure_window.length +
            ((attemptLoop method outcomes now remaining attempts g).attempts -
              attempts) + 1) ∧
      (attemptLoop method outcomes now remaining attempts
          g).state.upstream_retries_total =
        g.upstream_retries_total +
          ((attemptLoop method outcomes now remaining attempts g).attempts -
            attempts) := by
  intro remaining
  induction remaining with
  | zero =>
    intro attempts g hg hlen
    cases ho : outcomes attempts with
    | resp status content =>
      obtain ⟨hw, _, hr⟩ := observeResp_spec_not_half_open now status g hg
      simp [attemptLoop, finishAttempt, ho, hw, hr, dequeAppend_length]
    | timeout =>
      obtain ⟨hw, _, hr⟩ := observeTimeout_spec_not_half_open now g hg
      simp [attemptLoop, finishAttempt, ho, hw, hr, dequeAppend_length]
  | succ r ih =>
    intro attempts g hg hlen
    cases ho : outcomes attempts with
    | resp status content =>
      obtain ⟨hw, hs, hr⟩ := observeResp_spec_not_half_open now status g hg
      by_cases hf : (isFailureStatus status && isIdempotent method) = true
      · have hs' : (retryState (observeResp now status g)).circuit_state ≠
            .HALF_OPEN := by simpa [retryState] using hs
        have hlen' : (retryState (observeResp now status g)).failure_window.length =
            min CIRCUIT_WINDOW_SIZE (g.failure_window.length + 1) := by
          simp [retryState, hw, dequeAppend_length]
        have hr' : (retryState (observeResp now status g)).upstream_retries_total =
            g.upstream_retries_total + 1 := by simp [retryState, hr]
        have hb : (retryState (observeResp now status g)).failure_window.length ≤
            CIRCUIT_WINDOW_SIZE := by
          rw [hlen']; omega
        obtain ⟨ha, hwin, hret⟩ :=
          ih (attempts + 1) (retryState (observeResp now status g)) hs' hb
        simp only [attemptLoop, ho, hf, if_true]
        refine ⟨by omega, ?_, ?_⟩
        · rw [hwin, hlen']
          omega
        · rw [hret, hr']
          omega
      · simp [attemptLoop, finishAttempt, ho, hf, hw, hr, dequeAppend_length]
    | timeout =>
      obtain ⟨hw, hs, hr⟩ := observeTimeout_spec_not_half_open now g hg
      by_cases hi : isIdempotent method = true
      · have hs' : (retryState (observeTimeout now g)).circuit_state ≠
            .HALF_OPEN := by simpa [retryState] using hs
        have hlen' : (retryState (observeTimeout now g)).failure_window.length =
            min CIRCUIT_WINDOW_SIZE (g.failure_window.length + 1) := by
          simp [retryState, hw, dequeAppend_length]
        have hr' : (retryState (observeTimeout now g)).upstream_retries_total =
            g.upstream_retries_total + 1 := by simp [retryState, hr]
        have hb : (retryState (observeTimeout now g)).failure_window.length ≤
            CIRCUIT_WINDOW_SIZE := by
          rw [hlen']; omega
        obtain ⟨ha, hwin, hret⟩ :=
          ih (attempts + 1) (retryState (observeTimeout now g)) hs' hb
        simp only [attemptLoop, ho, hi, if_true]
        refine ⟨by omega, ?_, ?_⟩
        · rw [hwin, hlen']
          omega
        · rw [hret, hr']
          omega
      · simp [attemptLoop, finishAttempt, ho, hi, hw, hr, dequeAppend_length]

/-- C1 counterexample: a GET on a fresh CLOSED gateway whose upstream
answers 500 on every attempt has one terminal outcome (the final 5xx
returned after the 2 retries of MAX_RETRIES), yet THREE booleans are
appended to the failure window — one per attempt (lines 280 and 308
run on every iteration, before the retry decision) — while
upstream_retries_total rises by 2. -/
theorem C1_counterexample :
    (proxy gClosed 0 "x" "GET" 0 (fun _ => .resp 500 "err")).status = 500 ∧
    (proxy gClosed 0 "x" "GET" 0 (fun _ => .resp 500 "err")).upstream_attempts = 3 ∧
    (proxy gClosed 0 "x" "GET" 0
        (fun _ => .resp 500 "err")).state.failure_window.length = 3 ∧
    (proxy gClosed 0 "x" "GET" 0
        (fun _ => .resp 500 "err")).state.upstream_retries_total = 2 := by
  have hadm : circuit_admission gClosed 0 = .admitted gClosed := by
    simp [circuit_admission, gClosed]
  have hmode : request_mode_from_risk 0 = .NORMAL := by
    norm_num [request_mode_from_risk, HARD_RISK_THRESHOLD, SOFT_RISK_THRESHOLD]
  have e1 : retryState (observeResp 0 500 gClosed) =
      ⟨.CLOSED, none, false, [true], 0, 1, 0, 0, 1, 0, 0, 1, 0⟩ := by
    simp [retryState, observeResp, isFailureStatus, closeCircuit, dequeAppend,
      CIRCUIT_WINDOW_SIZE, maybe_open_circuit, CIRCUIT_MIN_REQUESTS, gClosed]
  have e2 : retryState (observeResp 0 500
        (⟨.CLOSED, none, false, [true], 0, 1, 0, 0, 1, 0, 0, 1, 0⟩ : GatewayState)) =
      ⟨.CLOSED, none, false, [true, true], 0, 2, 0, 0, 2, 0, 0, 2, 0⟩ := by
    simp [retryState, observeResp, isFailureStatus, closeCircuit, dequeAppend,
      CIRCUIT_WINDOW_SIZE, maybe_open_circuit, CIRCUIT_MIN_REQUESTS]
  have e3 : observeResp 0 500
      (⟨.CLOSED, none, false, [true, true], 0, 2, 0, 0, 2, 0, 0, 2, 0⟩ : GatewayState) =
      ⟨.CLOSED, none, false, [true, true, true], 0, 2, 0, 0, 3, 0, 0, 3, 0⟩ := by
    simp [observeResp, isFailureStatus, closeCircuit, dequeAppend,
      CIRCUIT_WINDOW_SIZE, maybe_open_circuit, CIRCUIT_MIN_REQUESTS,
      windowFailures, failureRatioOf]
  have hloop : attemptLoop "GET" (fun _ => .resp 500 "err") 0 MAX_RETRIES 0 gClosed =
      { status := 500, body := "err", attempts := 2,
        state := ⟨.CLOSED, none, false, [true, true, true], 0, 2, 0, 0, 3, 0, 0, 3, 0⟩ } := by
    simp [attemptLoop, MAX_RETRIES, isFailureStatus, isIdempotent,
      IDEMPOTENT_METHODS, finishAttempt, e1, e2, e3]
  simp [proxy, ADMIN_PATHS, hadm, hmode, hloop]

/-- C1 (amended): for every request handled from a CLOSED breaker,
either the request is short-circuited (path filter or HARD_FAIL) with
no append to the failure window, or the attempt loop runs and exactly
one boolean is appended per upstream attempt — retried attempts
included, each also incrementing upstream_retries_total — with the
window capped at CIRCUIT_WINDOW_SIZE. -/
theorem C1_window_append_per_attempt (g : GatewayState) (now : ℚ)
    (path method : String) (risk : ℚ) (outcomes : ℕ → Outcome)
    (h1 : g.circuit_state = .CLOSED)
    (h2 : g.failure_window.length ≤ CIRCUIT_WINDOW_SIZE) :
    ((proxy g now path method risk outcomes).effective_params = none →
      (proxy g now path method risk outcomes).state.failure_window =
        g.failure_window ∧
      (proxy g now path method risk outcomes).state.upstream_retries_total =
        g.upstream_retries_total) ∧
    ((proxy g now path method risk outcomes).effective_params ≠ none →
      1 ≤ (proxy g now path method risk outcomes).upstream_attempts ∧
      (proxy g now path method risk outcomes).state.failure_window.length =
        min CIRCUIT_WINDOW_SIZE
          (g.failure_window.length +
            (proxy g now path method risk outcomes).upstream_attempts) ∧
      (proxy g now path method risk outcomes).state.upstream_retries_total =
        g.upstream_retries_total +
          ((proxy g now path method risk outcomes).upstream_attempts - 1)) := by
  have hadm : circuit_admission g now = .admitted g := by
    simp [circuit_admission, h1]
  have hkey : ∀ rem : ℕ,
      1 ≤ (attemptLoop method outcomes now rem 0 g).attempts + 1 ∧
      (attemptLoop method outcomes now rem 0 g).state.failure_window.length =
        min CIRCUIT_WINDOW_SIZE
          (g.failure_window.length +
            ((attemptLoop method outcomes now rem 0 g).attempts + 1)) ∧
      (attemptLoop method outcomes now rem 0 g).state.upstream_retries_total =
        g.upstream_retries_total +
          (((attemptLoop method outcomes now rem 0 g).attempts + 1) - 1) := by
    intro rem
    obtain ⟨hA, hW, hR⟩ := attemptLoop_window_spec method outcomes now rem 0 g
      (by simp [h1]) h2
    refine ⟨by omega, ?_, ?_⟩
    · rw [hW]
      omega
    · rw [hR]
      omega
  unfold proxy
  split
  · exact ⟨fun _ => ⟨rfl, rfl⟩, by simp⟩
  · split
    · next status body g1 heq =>
      rw [hadm] at heq
      simp at heq
    · next g2 heq =>
      rw [hadm] at heq
      obtain rfl : g = g2 := by injection heq
      split
      all_goals first
        | exact ⟨fun _ => ⟨rfl, rfl⟩, by simp⟩
        | exact ⟨by simp, fun _ => hkey _⟩

/-- C1 witness: a successful GET on a fresh CLOSED gateway. -/
theorem C1_window_append_per_attempt_witness :
    ((proxy gClosed 0 "x" "GET" 0 (fun _ => .resp 200 "ok")).effective_params = none →
      (proxy gClosed 0 "x" "GET" 0 (fun _ => .resp 200 "ok")).state.failure_window =
        gClosed.failure_window ∧
      (proxy gClosed 0 "x" "GET" 0
          (fun _ => .resp 200 "ok")).state.upstream_retries_total =
        gClosed.upstream_retries_total) ∧
    ((proxy gClosed 0 "x" "GET" 0 (fun _ => .resp 200 "ok")).effective_params ≠ none →
      1 ≤ (proxy gClosed 0 "x" "GET" 0 (fun _ => .resp 200 "ok")).upstream_attempts ∧
      (proxy gClosed 0 "x" "GET" 0
          (fun _ => .resp 200 "ok")).state.failure_window.length =
        min CIRCUIT_WINDOW_SIZE
          (gClosed.failure_window.length +
            (proxy gClosed 0 "x" "GET" 0 (fun _ => .resp 200 "ok")).upstream_attempts) ∧
      (proxy gClosed 0 "x" "GET" 0
          (fun _ => .resp 200 "ok")).state.upstream_retries_total =
        gClosed.upstream_retries_total +
          ((proxy gClosed 0 "x" "GET" 0
              (fun _ => .resp 200 "ok")).upstream_attempts - 1)) :=
  C1_window_append_per_attempt gClosed 0 "x" "GET" 0 (fun _ => .resp 200 "ok")
    (by simp [gClosed]) (by simp [gClosed, CIRCUIT_WINDOW_SIZE])

end PhantomAPI
